import Mathlib

/-!
Shallow embedding of `openni2_camera/src/camera.cpp`: the sensor stream
lifecycle manager (`SensorStreamManager`), its depth specialization
(`DepthSensorStreamManager`), and the reconfiguration coordinator
(`CameraImpl::configure`).  Hardware calls (`start`, `setVideoMode`,
stream creation) are modelled through an explicit outcome oracle `HWEnv`;
stateful C++ objects become explicit state records, and side effects that
matter to the specification (logging, listener registration, handle
destruction/creation) are recorded in an action trace.
-/

namespace OpenNI2

/-- OpenNI pixel formats used by the driver (`openni::PixelFormat`). -/
inductive PixelFormat
  | DEPTH_1_MM
  | DEPTH_100_UM
  | SHIFT_9_2
  | SHIFT_9_3
  | RGB888
  | YUV422
  | GRAY8
  | GRAY16
  | JPEG
deriving DecidableEq, Repr

/-- Sensor kinds (`openni::SensorType`): SENSOR_COLOR, SENSOR_DEPTH, SENSOR_IR. -/
inductive SensorKind
  | color
  | depth
  | infrared
deriving DecidableEq, Repr

/-- `openni::VideoMode`: resolution, frame rate and pixel format. -/
structure VideoMode where
  x : Nat
  y : Nat
  fps : Nat
  format : PixelFormat
deriving DecidableEq, Repr

/-- Device-wide image registration mode (`openni::ImageRegistrationMode`). -/
inductive RegistrationMode
  | off
  | depthToColor
deriving DecidableEq, Repr

/-- State of one `SensorStreamManager`: the `running_` / `was_running_` flags,
the hardware stream's current video mode, the sensor kind the stream is bound
to, the published `frame_id_`, whether the frame listener is registered, the
number of live hardware stream handles, and the camera settings mutated by
`CameraImpl::configure`. -/
structure StreamState where
  running : Bool
  wasRunning : Bool
  mode : VideoMode
  kind : SensorKind
  frameId : String
  listener : Bool
  handles : Nat
  autoExposure : Bool
  autoWhiteBalance : Bool
  mirror : Bool
deriving DecidableEq, Repr

/-- Outcomes the hardware gives to the driver during one operation:
`startOk i` is the result of the (i+1)-th `stream_.start()` call,
`accepts m` is whether `stream_.setVideoMode(m)` succeeds, and
`createMode` is the video mode a freshly created stream reports. -/
structure HWEnv where
  startOk : Nat → Bool
  accepts : VideoMode → Bool
  createMode : VideoMode

/-- Observable actions of the restart-recovery path of `endConfigure`. -/
inductive Act
  | start (ok : Bool)
  | logWarn
  | sleep
  | removeListener
  | destroy
  | create (kind : SensorKind)
  | addListener
deriving DecidableEq, Repr

/-- Reported outcome of `endConfigure`: nothing, "Recovered stream" (info), or
"Failed to recover stream ... Restart required!" (error). -/
inductive Report
  | silent
  | recovered
  | error
deriving DecidableEq, Repr

/-- `SensorStreamManager::beginConfigure`: `was_running_ = running_;
if(was_running_) stream_.stop(); running_ = false; return true;`. -/
def beginConfigure (s : StreamState) : Bool × StreamState :=
  (true, { s with wasRunning := s.running, running := false })

/-- `stream_.setVideoMode(m)`: on acceptance the stream's mode becomes `m`;
on rejection the mode is left unchanged and failure is returned. -/
def setVideoMode (accepts : VideoMode → Bool) (m : VideoMode) (s : StreamState) :
    Bool × StreamState :=
  if accepts m then (true, { s with mode := m }) else (false, s)

/-- `SensorStreamManager::tryConfigureVideoMode`: remember the old mode, try
the new one; on failure re-apply the old mode and report failure. -/
def tryConfigureVideoMode (accepts : VideoMode → Bool) (m : VideoMode)
    (s : StreamState) : Bool × StreamState :=
  let old := s.mode
  let r := setVideoMode accepts m s
  if r.1 then (true, r.2)
  else (false, (setVideoMode accepts old r.2).2)

/-- The recovery-trial bound hardcoded in `endConfigure`: `int max_trials = 1;`. -/
def maxTrials : Nat := 1

/-- The recovery loop of `endConfigure`:
`for(int trials = 0; trials < max_trials && rc != STATUS_OK; ++trials)`
with body: sleep 100ms, remove listener, destroy, create the stream for the
same sensor kind, add listener, `rc = stream_.start()`.  The first argument is
the number of remaining trials, the second the index of the next `start()`
call in `HWEnv.startOk`.  Returns final state, trace, and whether `rc` became
STATUS_OK. -/
def recoveryTrials (env : HWEnv) : Nat → Nat → StreamState →
    StreamState × List Act × Bool
  | 0, _, s => (s, [], false)
  | n + 1, i, s =>
    let s1 := { s with listener := false }
    let s2 := { s1 with handles := s1.handles - 1 }
    let s3 := { s2 with handles := s2.handles + 1, mode := env.createMode }
    let s4 := { s3 with listener := true }
    let ok := env.startOk i
    let acts := [Act.sleep, Act.removeListener, Act.destroy, Act.create s.kind,
                 Act.addListener, Act.start ok]
    if ok then (s4, acts, true)
    else
      let r := recoveryTrials env n (i + 1) s4
      (r.1, acts ++ r.2.1, r.2.2)

/-- Result of `endConfigure`: the final stream state, the trace of hardware
and logging actions, and the reported outcome. -/
structure EndResult where
  state : StreamState
  trace : List Act
  report : Report
deriving Repr

/-- `SensorStreamManager::endConfigure`: if the stream `was_running_`, call
`stream_.start()`; on failure log a warning and run the bounded recovery loop
(`maxTrials` trials); log an error if recovery failed, an info message if it
recovered; finally set `running_ = true` iff the last `start()` succeeded.
Note line 230 (`stream_.setVideoMode(default_mode_)`) is commented out in the
source: a recreated stream keeps the mode creation yields (`HWEnv.createMode`). -/
def endConfigure (env : HWEnv) (s : StreamState) : EndResult :=
  if s.wasRunning then
    if env.startOk 0 then
      { state := { s with running := true }, trace := [Act.start true],
        report := Report.silent }
    else
      let r := recoveryTrials env maxTrials 1 s
      { state := if r.2.2 then { r.1 with running := true } else r.1,
        trace := Act.start false :: Act.logWarn :: r.2.1,
        report := if r.2.2 then Report.recovered else Report.error }
  else
    { state := s, trace := [], report := Report.silent }

/-- Number of recovery trials recorded in a trace (one sleep per trial). -/
def countSleeps : List Act → Nat
  | [] => 0
  | Act.sleep :: r => countSleeps r + 1
  | _ :: r => countSleeps r

/-- `SensorStreamManager::onSubscriptionChanged`: if the topic has subscribers
and the stream is not running, start it (running becomes true only if
`start()` succeeded); if there are no subscribers, stop it. -/
def onSubscriptionChanged (count : Nat) (startOk : Bool) (s : StreamState) :
    StreamState :=
  if count > 0 then
    if !s.running && startOk then { s with running := true } else s
  else
    { s with running := false }

/-- Processes a sequence of subscription-change notifications; each event is
the observed subscriber count paired with the outcome `stream_.start()` would
have in that event. -/
def runSubscription (s : StreamState) (evs : List (Nat × Bool)) : StreamState :=
  evs.foldl (fun st e => onSubscriptionChanged e.1 e.2 st) s

/-- The four logical output channels of `DepthSensorStreamManager`:
`publisher_`, `disparity_publisher_`, `depth_registered_publisher_`,
`disparity_registered_publisher_`. -/
inductive Channel
  | primary
  | primaryDisparity
  | registered
  | registeredDisparity
deriving DecidableEq, Repr

/-- State of a `DepthSensorStreamManager`: the base stream state plus the two
frame ids and the currently selected output channel (`active_publisher_`,
`none` models the null pointer). -/
structure DepthState extends StreamState where
  rgbFrameId : String
  depthFrameId : String
  active : Option Channel
deriving DecidableEq, Repr

/-- `DepthSensorStreamManager::updateActivePublisher`: pick the candidate
depth/disparity channels and the outgoing frame id from the device's image
registration mode, then select among the candidates by the stream's current
pixel format (`DEPTH_1_MM` → depth candidate, `SHIFT_9_2` → disparity
candidate, anything else → no active channel). -/
def updateActivePublisher (reg : RegistrationMode) (d : DepthState) : DepthState :=
  let pd : Channel × Channel × String :=
    match reg with
    | RegistrationMode.depthToColor =>
        (Channel.registered, Channel.registeredDisparity, d.rgbFrameId)
    | RegistrationMode.off =>
        (Channel.primary, Channel.primaryDisparity, d.depthFrameId)
  let active : Option Channel :=
    if d.mode.format = PixelFormat.DEPTH_1_MM then some pd.1
    else if d.mode.format = PixelFormat.SHIFT_9_2 then some pd.2.1
    else none
  { d with frameId := pd.2.2, active := active }

/-- Subscriber counts of the four depth output channels. -/
structure DepthCounts where
  primary : Nat
  primaryDisparity : Nat
  registered : Nat
  registeredDisparity : Nat
deriving DecidableEq, Repr

/-- `all_clients` in `DepthSensorStreamManager::onSubscriptionChanged`:
disparity clients plus depth clients, summed over registered and
unregistered channels. -/
def DepthCounts.total (c : DepthCounts) : Nat :=
  (c.primaryDisparity + c.registeredDisparity) + (c.primary + c.registered)

/-- `DepthSensorStreamManager::onSubscriptionChanged`: start the stream when
not running and the aggregate count is positive (`running_` becomes the
outcome of `start()`), stop it when running and the aggregate count is zero,
then re-run `updateActivePublisher` if running. -/
def depthOnSubscriptionChanged (reg : RegistrationMode) (cnt : DepthCounts)
    (startOk : Bool) (d : DepthState) : DepthState :=
  let all := cnt.total
  let d1 :=
    if !d.running && all > 0 then { d with running := startOk }
    else if d.running && all == 0 then { d with running := false }
    else d
  if d1.running then updateActivePublisher reg d1 else d1

/-- Processes a sequence of depth subscription-change notifications. -/
def runDepthSubscription (reg : RegistrationMode) (d : DepthState)
    (evs : List (DepthCounts × Bool)) : DepthState :=
  evs.foldl (fun st e => depthOnSubscriptionChanged reg e.1 e.2 st) d

/-- Image encodings assigned by `SensorStreamManager::onNewFrame`; `unknown`
models the default branch that only logs a warning. -/
inductive Encoding
  | mono8
  | mono16
  | yuv422
  | rgb8
  | type16UC1
  | unknown
deriving DecidableEq, Repr

/-- The pixel-format → encoding switch in `onNewFrame`. -/
def encodingOf : PixelFormat → Encoding
  | PixelFormat.GRAY8 => Encoding.mono8
  | PixelFormat.GRAY16 => Encoding.mono16
  | PixelFormat.YUV422 => Encoding.yuv422
  | PixelFormat.RGB888 => Encoding.rgb8
  | PixelFormat.SHIFT_9_2 => Encoding.type16UC1
  | PixelFormat.DEPTH_1_MM => Encoding.type16UC1
  | _ => Encoding.unknown

/-- The camera intrinsics entries computed by `onNewFrame`:
`K[0], K[2], K[4], K[5]` (the projection matrix `P` repeats the same values). -/
structure Intrinsics where
  k0 : ℚ
  k2 : ℚ
  k4 : ℚ
  k5 : ℚ
deriving DecidableEq, Repr

/-- `scale = width / 1280; K[0] = K[4] = 1050.0 * scale;
K[2] = width / 2.0 - 0.5; K[5] = height / 2.0 - 0.5`.  All values are exact
dyadic rationals, so ℚ models the double computation exactly. -/
def computeIntrinsics (w h : Nat) : Intrinsics :=
  let scale : ℚ := (w : ℚ) / 1280
  { k0 := 1050 * scale
    k2 := (w : ℚ) / 2 - 1 / 2
    k4 := 1050 * scale
    k5 := (h : ℚ) / 2 - 1 / 2 }

/-- A raw hardware frame as read by `onNewFrame` (`openni::VideoFrameRef`). -/
structure RawFrame where
  width : Nat
  height : Nat
  stride : Nat
  format : PixelFormat
  dataSize : Nat
deriving DecidableEq, Repr

/-- The image + camera-info record `onNewFrame` hands to `publish`. -/
structure OutputRecord where
  frameId : String
  width : Nat
  height : Nat
  step : Nat
  encoding : Encoding
  intrinsics : Intrinsics
deriving DecidableEq, Repr

/-- `SensorStreamManager::onNewFrame`: build the output record from the raw
frame, with the encoding switch and the scaled pinhole intrinsics. -/
def onNewFrame (frameId : String) (f : RawFrame) : OutputRecord :=
  { frameId := frameId
    width := f.width
    height := f.height
    step := f.stride
    encoding := encodingOf f.format
    intrinsics := computeIntrinsics f.width f.height }

/-- `DepthSensorStreamManager::publish`: forward the record to the active
channel when one is selected, otherwise drop it (null `active_publisher_`). -/
def depthPublish (d : DepthState) (rec : OutputRecord) :
    Option (Channel × OutputRecord) :=
  match d.active with
  | some c => some (c, rec)
  | none => none

/-- Keys of the resolution map built by `CameraImpl::buildResolutionMap`
(the `Camera_*` constants of the generated `CameraConfig`). -/
inductive Resolution
  | RGB_320x240_30Hz
  | RGB_320x240_60Hz
  | RGB_640x480_30Hz
  | RGB_1280x720_30Hz
  | RGB_1280x1024_30Hz
  | YUV_320x240_30Hz
  | YUV_320x240_60Hz
  | YUV_640x480_30Hz
  | YUV_1280x1024_30Hz
  | DEPTH_320x240_30Hz
  | DEPTH_320x240_60Hz
  | DEPTH_640x480_30Hz
  | DISPARITY_320x240_30Hz
  | DISPARITY_320x240_60Hz
  | DISPARITY_640x480_30Hz
  | IR_320x240_30Hz
  | IR_320x240_60Hz
  | IR_640x480_30Hz
  | IR_1280x1024_30Hz
deriving DecidableEq, Repr

/-- `CameraImpl::buildResolutionMap`: every key resolves to exactly one mode. -/
def resolutions : Resolution → VideoMode
  | Resolution.RGB_320x240_30Hz => ⟨320, 240, 30, PixelFormat.RGB888⟩
  | Resolution.RGB_320x240_60Hz => ⟨320, 240, 60, PixelFormat.RGB888⟩
  | Resolution.RGB_640x480_30Hz => ⟨640, 480, 30, PixelFormat.RGB888⟩
  | Resolution.RGB_1280x720_30Hz => ⟨1280, 720, 30, PixelFormat.RGB888⟩
  | Resolution.RGB_1280x1024_30Hz => ⟨1280, 1024, 30, PixelFormat.RGB888⟩
  | Resolution.YUV_320x240_30Hz => ⟨320, 240, 30, PixelFormat.YUV422⟩
  | Resolution.YUV_320x240_60Hz => ⟨320, 240, 60, PixelFormat.YUV422⟩
  | Resolution.YUV_640x480_30Hz => ⟨640, 480, 30, PixelFormat.YUV422⟩
  | Resolution.YUV_1280x1024_30Hz => ⟨1280, 1024, 30, PixelFormat.YUV422⟩
  | Resolution.DEPTH_320x240_30Hz => ⟨320, 240, 30, PixelFormat.DEPTH_1_MM⟩
  | Resolution.DEPTH_320x240_60Hz => ⟨320, 240, 60, PixelFormat.DEPTH_1_MM⟩
  | Resolution.DEPTH_640x480_30Hz => ⟨640, 480, 30, PixelFormat.DEPTH_1_MM⟩
  | Resolution.DISPARITY_320x240_30Hz => ⟨320, 240, 30, PixelFormat.SHIFT_9_2⟩
  | Resolution.DISPARITY_320x240_60Hz => ⟨320, 240, 60, PixelFormat.SHIFT_9_2⟩
  | Resolution.DISPARITY_640x480_30Hz => ⟨640, 480, 30, PixelFormat.SHIFT_9_2⟩
  | Resolution.IR_320x240_30Hz => ⟨320, 240, 30, PixelFormat.RGB888⟩
  | Resolution.IR_320x240_60Hz => ⟨320, 240, 60, PixelFormat.RGB888⟩
  | Resolution.IR_640x480_30Hz => ⟨640, 480, 30, PixelFormat.RGB888⟩
  | Resolution.IR_1280x1024_30Hz => ⟨1280, 1024, 30, PixelFormat.RGB888⟩

/-- The dynamic-reconfigure request (`CameraConfig`), with validated
resolution keys. -/
structure CameraConfig where
  rgb_resolution : Resolution
  depth_resolution : Resolution
  ir_resolution : Resolution
  auto_exposure : Bool
  auto_white_balance : Bool
  mirror : Bool
  depth_registration : Bool
deriving DecidableEq, Repr

/-- Device-wide settings touched by `CameraImpl::configure`:
the result of `isImageRegistrationModeSupported(DEPTH_TO_COLOR)`, the
current image registration mode, and the depth-color sync flag. -/
structure Device where
  registrationSupported : Bool
  registrationMode : RegistrationMode
  depthColorSync : Bool
deriving DecidableEq, Repr

/-- State of `CameraImpl`: the three sensor managers (`none` models the
plain `SensorStreamManagerBase` used when a sensor is absent, whose
`beginConfigure` returns false so the sensor's block is skipped) and the
device. -/
structure CameraState where
  rgb : Option StreamState
  depth : Option DepthState
  ir : Option StreamState
  device : Device

/-- Events observable in one `CameraImpl::configure` round: a sensor's
begin/end-configure block ran, or `setDepthColorSyncEnabled(true)` was
asserted. -/
inductive CfgEvent
  | sensorConfigured (k : SensorKind)
  | syncAsserted
deriving DecidableEq, Repr

/-- The rgb block of `CameraImpl::configure`: bit 8 = rgb resolution,
bit 2 = auto exposure, bit 4 = auto white balance, bit 64 = mirroring. -/
def configureRGB (env : HWEnv) (cfg : CameraConfig) (level : Nat)
    (s : StreamState) : StreamState :=
  let s1 := (beginConfigure s).2
  let s2 := if level &&& 8 ≠ 0 then
      (tryConfigureVideoMode env.accepts (resolutions cfg.rgb_resolution) s1).2
    else s1
  let s3 := if level &&& 2 ≠ 0 then { s2 with autoExposure := cfg.auto_exposure }
    else s2
  let s4 := if level &&& 4 ≠ 0 then
      { s3 with autoWhiteBalance := cfg.auto_white_balance }
    else s3
  let s5 := if level &&& 64 ≠ 0 then { s4 with mirror := cfg.mirror } else s4
  (endConfigure env s5).state

/-- `SensorStreamManager::beginConfigure` as inherited by
`DepthSensorStreamManager`. -/
def depthBeginConfigure (d : DepthState) : Bool × DepthState :=
  let r := beginConfigure d.toStreamState
  (r.1, { d with toStreamState := r.2 })

/-- `DepthSensorStreamManager::endConfigure`: the base `endConfigure`, then
`updateActivePublisher()` if the stream is running, reading the device's
current registration mode. -/
def depthEndConfigure (reg : RegistrationMode) (env : HWEnv) (d : DepthState) :
    DepthState :=
  let r := endConfigure env d.toStreamState
  let d1 : DepthState := { d with toStreamState := r.state }
  if d1.running then updateActivePublisher reg d1 else d1

/-- The depth block of `CameraImpl::configure`: bit 16 = depth resolution,
bit 1 = registration mode (falling back to `depth_registration = false` in the
returned configuration when DEPTH_TO_COLOR is unsupported), bit 64 =
mirroring; then `endConfigure`. -/
def configureDepth (env : HWEnv) (cfg : CameraConfig) (level : Nat)
    (dev : Device) (d : DepthState) : DepthState × Device × CameraConfig :=
  let d1 := (depthBeginConfigure d).2
  let d2 := if level &&& 16 ≠ 0 then
      { d1 with toStreamState :=
          (tryConfigureVideoMode env.accepts (resolutions cfg.depth_resolution)
            d1.toStreamState).2 }
    else d1
  let dc : Device × CameraConfig :=
    if level &&& 1 ≠ 0 then
      if cfg.depth_registration then
        if dev.registrationSupported then
          ({ dev with registrationMode := RegistrationMode.depthToColor }, cfg)
        else (dev, { cfg with depth_registration := false })
      else ({ dev with registrationMode := RegistrationMode.off }, cfg)
    else (dev, cfg)
  let d3 := if level &&& 64 ≠ 0 then { d2 with mirror := dc.2.mirror } else d2
  let d4 := depthEndConfigure dc.1.registrationMode env d3
  (d4, dc.1, dc.2)

/-- The ir block of `CameraImpl::configure`: bit 32 = ir resolution,
bit 64 = mirroring. -/
def configureIR (env : HWEnv) (cfg : CameraConfig) (level : Nat)
    (s : StreamState) : StreamState :=
  let s1 := (beginConfigure s).2
  let s2 := if level &&& 32 ≠ 0 then
      (tryConfigureVideoMode env.accepts (resolutions cfg.ir_resolution) s1).2
    else s1
  let s3 := if level &&& 64 ≠ 0 then { s2 with mirror := cfg.mirror } else s2
  (endConfigure env s3).state

/-- `CameraImpl::configure`: process the rgb sensor, then the depth sensor,
then the ir sensor (each skipped when `beginConfigure` returns false, i.e.
when the sensor is absent), then unconditionally re-assert
`setDepthColorSyncEnabled(true)`.  Returns the new camera state, the
(possibly amended) accepted configuration, and the event trace. -/
def configure (envR envD envI : HWEnv) (cfg : CameraConfig) (level : Nat)
    (st : CameraState) : CameraState × CameraConfig × List CfgEvent :=
  let rgbPart : Option StreamState × List CfgEvent :=
    match st.rgb with
    | some s => (some (configureRGB envR cfg level s),
                 [CfgEvent.sensorConfigured SensorKind.color])
    | none => (none, [])
  let depthPart : Option DepthState × Device × CameraConfig × List CfgEvent :=
    match st.depth with
    | some d =>
      let r := configureDepth envD cfg level st.device d
      (some r.1, r.2.1, r.2.2, [CfgEvent.sensorConfigured SensorKind.depth])
    | none => (none, st.device, cfg, [])
  let irPart : Option StreamState × List CfgEvent :=
    match st.ir with
    | some s => (some (configureIR envI depthPart.2.2.1 level s),
                 [CfgEvent.sensorConfigured SensorKind.infrared])
    | none => (none, [])
  let dev2 := { depthPart.2.1 with depthColorSync := true }
  (⟨rgbPart.1, depthPart.1, irPart.1, dev2⟩, depthPart.2.2.1,
   rgbPart.2 ++ depthPart.2.2.2 ++ irPart.2 ++ [CfgEvent.syncAsserted])

/-! ### Concrete fixtures used by witnesses and counterexamples -/

/-- A concrete video mode (the default rgb mode). -/
def vmRGB : VideoMode := ⟨640, 480, 30, PixelFormat.RGB888⟩

/-- A concrete depth video mode. -/
def vmDepth : VideoMode := ⟨640, 480, 30, PixelFormat.DEPTH_1_MM⟩

/-- A concrete running rgb stream state. -/
def sRun : StreamState :=
  { running := true, wasRunning := false, mode := vmRGB, kind := SensorKind.color
    frameId := "camera_rgb_optical_frame", listener := true, handles := 1
    autoExposure := true, autoWhiteBalance := true, mirror := false }

/-- A stream state as it looks right after `beginConfigure` on a running
stream: `was_running_` set, `running_` cleared. -/
def sPaused : StreamState :=
  { sRun with running := false, wasRunning := true }

/-- A hardware environment in which every `start()` call fails. -/
def envAllFail : HWEnv :=
  { startOk := fun _ => false, accepts := fun _ => true, createMode := vmRGB }

/-- A hardware environment in which every `start()` call succeeds. -/
def envAllOk : HWEnv :=
  { startOk := fun _ => true, accepts := fun _ => true, createMode := vmRGB }

/-- A hardware environment in which the initial `start()` fails and the
recovery trial's `start()` succeeds; a recreated stream reports `vmDepth`. -/
def envRecover : HWEnv :=
  { startOk := fun i => i == 1, accepts := fun _ => true, createMode := vmDepth }

/-- A concrete depth router state. -/
def dDepth : DepthState :=
  { running := false, wasRunning := false, mode := vmDepth
    kind := SensorKind.depth, frameId := "camera_depth_optical_frame"
    listener := true, handles := 1, autoExposure := true
    autoWhiteBalance := true, mirror := false
    rgbFrameId := "camera_rgb_optical_frame"
    depthFrameId := "camera_depth_optical_frame", active := none }

/-- A camera with only the depth sensor, registration unsupported and off. -/
def camNoReg : CameraState :=
  { rgb := none, depth := some dDepth, ir := none
    device := { registrationSupported := false
                registrationMode := RegistrationMode.off
                depthColorSync := true } }

/-- A configuration request asking for depth registration. -/
def cfgReg : CameraConfig :=
  { rgb_resolution := Resolution.RGB_640x480_30Hz
    depth_resolution := Resolution.DEPTH_640x480_30Hz
    ir_resolution := Resolution.IR_640x480_30Hz
    auto_exposure := true, auto_white_balance := true
    mirror := false, depth_registration := true }

/-! ### Claim theorems -/

/-- Claim C6: for every stream controller state, `beginConfigure` records in
`was_running_` whether the stream was running, leaves `running_` false
afterwards (the stream is stopped), and returns true. -/
theorem beginConfigure_records_stops_returns_true (s : StreamState) :
    (beginConfigure s).1 = true
    ∧ (beginConfigure s).2.wasRunning = s.running
    ∧ (beginConfigure s).2.running = false := by
  refine ⟨rfl, rfl, rfl⟩

/-- Claim C3: `tryConfigureVideoMode` returns success iff the hardware accepts
the new mode, and the resulting stream mode is exactly the new mode on
acceptance and exactly the prior mode on rejection — never anything else. -/
theorem tryConfigureVideoMode_new_or_restored (acc : VideoMode → Bool)
    (m : VideoMode) (s : StreamState) :
    tryConfigureVideoMode acc m s =
      (acc m, { s with mode := if acc m then m else s.mode }) := by
  by_cases h : acc m = true
  · simp [tryConfigureVideoMode, setVideoMode, h]
  · have h' : acc m = false := by
      cases hh : acc m
      · rfl
      · exact absurd hh h
    by_cases h2 : acc s.mode = true
    · simp [tryConfigureVideoMode, setVideoMode, h', h2]
    · have h2' : acc s.mode = false := by
        cases hh : acc s.mode
        · rfl
        · exact absurd hh h2
      simp [tryConfigureVideoMode, setVideoMode, h', h2']

/-- Claim C9: `onNewFrame` computes pinhole intrinsics with focal entries
`1050.0 * (width / 1280)` and principal point at `(width/2 - 0.5,
height/2 - 0.5)`; in particular a 1280×960 frame yields `K[0] = K[4] = 1050`
and principal point `(639.5, 479.5)`. -/
theorem onNewFrame_intrinsics (fid : String) (f : RawFrame) :
    (onNewFrame fid f).intrinsics.k0 = 1050 * ((f.width : ℚ) / 1280)
    ∧ (onNewFrame fid f).intrinsics.k4 = 1050 * ((f.width : ℚ) / 1280)
    ∧ (onNewFrame fid f).intrinsics.k2 = (f.width : ℚ) / 2 - 1 / 2
    ∧ (onNewFrame fid f).intrinsics.k5 = (f.height : ℚ) / 2 - 1 / 2
    ∧ (onNewFrame "d" (RawFrame.mk 1280 960 2560 PixelFormat.DEPTH_1_MM
        2457600)).intrinsics = Intrinsics.mk 1050 (1279 / 2) 1050 (959 / 2) := by
  refine ⟨rfl, rfl, rfl, rfl, ?_⟩
  simp only [onNewFrame, computeIntrinsics, Intrinsics.mk.injEq]
  norm_num

/-- Claim C4: the depth router's channel selection: with pixel format
DEPTH_1_MM the depth candidate is chosen (primary channel with the depth
frame id when registration is off, registered channel with the color frame id
when registration is DEPTH_TO_COLOR); with SHIFT_9_2 the analogous disparity
candidate; with any other pixel format no channel is active, and `publish`
then drops the record. -/
theorem depth_router_channel_selection (reg : RegistrationMode)
    (d : DepthState) (rec : OutputRecord) :
    ((updateActivePublisher reg d).active =
      match reg, d.mode.format with
      | RegistrationMode.off, PixelFormat.DEPTH_1_MM => some Channel.primary
      | RegistrationMode.off, PixelFormat.SHIFT_9_2 =>
          some Channel.primaryDisparity
      | RegistrationMode.depthToColor, PixelFormat.DEPTH_1_MM =>
          some Channel.registered
      | RegistrationMode.depthToColor, PixelFormat.SHIFT_9_2 =>
          some Channel.registeredDisparity
      | _, _ => none)
    ∧ ((updateActivePublisher reg d).frameId =
      match reg with
      | RegistrationMode.off => d.depthFrameId
      | RegistrationMode.depthToColor => d.rgbFrameId)
    ∧ depthPublish (updateActivePublisher reg d) rec =
        Option.map (fun c => (c, rec)) (updateActivePublisher reg d).active := by
  refine ⟨?_, ?_, ?_⟩
  · cases reg <;> cases hf : d.mode.format <;>
      simp [updateActivePublisher, hf]
  · cases reg <;> simp [updateActivePublisher]
  · cases h : (updateActivePublisher reg d).active <;> simp [depthPublish, h]

/-- Claim C1: when `endConfigure` restarts a previously running stream and the
initial `start()` fails, the component performs at most `maxTrials` (= 1)
recovery trials — the trace is exactly: failed start, warning, then one trial
consisting of the delay, unregistering the listener, destroying and recreating
the stream for the same sensor kind, re-registering the listener, and a new
`start()`.  If that attempt succeeds, `running_` becomes true and recovery is
reported; if it fails, `running_` stays false, an error is reported, and the
stream is left stopped.  Exactly one live stream handle remains. -/
theorem endConfigure_bounded_recovery (env : HWEnv) (s : StreamState)
    (hw : s.wasRunning = true) (hr : s.running = false)
    (h0 : env.startOk 0 = false) (hh : s.handles = 1) :
    (endConfigure env s).trace =
      [Act.start false, Act.logWarn, Act.sleep, Act.removeListener, Act.destroy,
       Act.create s.kind, Act.addListener, Act.start (env.startOk 1)]
    ∧ countSleeps (endConfigure env s).trace ≤ maxTrials
    ∧ (endConfigure env s).state.running = env.startOk 1
    ∧ (endConfigure env s).report =
        (if env.startOk 1 then Report.recovered else Report.error)
    ∧ (endConfigure env s).state.handles = 1 := by
  cases h1 : env.startOk 1 <;>
    simp [endConfigure, recoveryTrials, maxTrials, hw, hr, h0, hh, h1,
      countSleeps]

/-- Witness for C1 at a concrete paused stream and a recovering environment. -/
theorem endConfigure_bounded_recovery_witness :
    (sPaused.wasRunning = true ∧ sPaused.running = false
      ∧ envRecover.startOk 0 = false ∧ sPaused.handles = 1)
    ∧ ((endConfigure envRecover sPaused).trace =
        [Act.start false, Act.logWarn, Act.sleep, Act.removeListener,
         Act.destroy, Act.create sPaused.kind, Act.addListener,
         Act.start (envRecover.startOk 1)]
      ∧ countSleeps (endConfigure envRecover sPaused).trace ≤ maxTrials
      ∧ (endConfigure envRecover sPaused).state.running = envRecover.startOk 1
      ∧ (endConfigure envRecover sPaused).report =
          (if envRecover.startOk 1 then Report.recovered else Report.error)
      ∧ (endConfigure envRecover sPaused).state.handles = 1) :=
  ⟨⟨rfl, rfl, rfl, rfl⟩,
   endConfigure_bounded_recovery envRecover sPaused rfl rfl rfl rfl⟩

/-- Claim C10: in the restart-recovery path (line 230's
`stream_.setVideoMode(default_mode_)` is commented out), a stream recovered by
a recovery trial runs with whatever video mode stream creation yields
(`HWEnv.createMode`), independent of the mode configured before the failure. -/
theorem recovery_does_not_reapply_mode (env : HWEnv) (s : StreamState)
    (hw : s.wasRunning = true) (h0 : env.startOk 0 = false)
    (h1 : env.startOk 1 = true) :
    (endConfigure env s).state.running = true
    ∧ (endConfigure env s).state.mode = env.createMode := by
  simp [endConfigure, recoveryTrials, maxTrials, hw, h0, h1]

/-- Witness for C10: the pre-failure mode of `sPaused` is `vmRGB`, yet the
recovered stream runs in `envRecover.createMode = vmDepth`. -/
theorem recovery_does_not_reapply_mode_witness :
    (sPaused.wasRunning = true ∧ envRecover.startOk 0 = false
      ∧ envRecover.startOk 1 = true)
    ∧ ((endConfigure envRecover sPaused).state.running = true
      ∧ (endConfigure envRecover sPaused).state.mode = envRecover.createMode) :=
  ⟨⟨rfl, rfl, rfl⟩, recovery_does_not_reapply_mode envRecover sPaused rfl rfl rfl⟩

/-- Counterexample to claim C2 as stated: for the running stream `sRun` and a
hardware environment in which every `start()` fails, `beginConfigure` followed
immediately by `endConfigure` does not restore the pre-call running state. -/
theorem begin_end_no_restore_on_start_failure :
    (endConfigure envAllFail (beginConfigure sRun).2).state.running
      ≠ sRun.running := by
  decide

/-- Claim C2 (amended): `beginConfigure` followed immediately by
`endConfigure` restores the pre-call running state provided that, when the
stream was running, the restart `start()` — initial or in the recovery trial —
succeeds; a stream that was stopped remains stopped. -/
theorem begin_end_restores_running (env : HWEnv) (s : StreamState)
    (h : env.startOk 0 = true ∨ env.startOk 1 = true) :
    (endConfigure env (beginConfigure s).2).state.running = s.running := by
  cases hr : s.running
  · simp [beginConfigure, endConfigure, hr]
  · cases h0 : env.startOk 0
    · have h1 : env.startOk 1 = true := by
        rcases h with h | h
        · exact absurd h (by simp [h0])
        · exact h
      simp [beginConfigure, endConfigure, recoveryTrials, maxTrials, hr, h0, h1]
    · simp [beginConfigure, endConfigure, hr, h0]

/-- Witness for the amended C2 at `sRun` and an always-succeeding start. -/
theorem begin_end_restores_running_witness :
    (envAllOk.startOk 0 = true ∨ envAllOk.startOk 1 = true)
    ∧ (endConfigure envAllOk (beginConfigure sRun).2).state.running
        = sRun.running :=
  ⟨Or.inl rfl, begin_end_restores_running envAllOk sRun (Or.inl rfl)⟩

/-- `updateActivePublisher` only re-routes; it never touches `running_`. -/
theorem updateActivePublisher_running (reg : RegistrationMode) (d : DepthState) :
    (updateActivePublisher reg d).running = d.running := rfl

/-- Claim C5: for every sequence of subscription-change notifications whose
last notification's `start()` outcome is success, the stream is running after
the sequence iff the most recently observed subscriber count is positive —
both for the plain stream controller and for the depth router, whose count is
the aggregate over all four channels. -/
theorem running_iff_recent_demand :
    (∀ (evs : List (Nat × Bool)) (c : Nat) (s : StreamState),
      (runSubscription s (evs ++ [(c, true)])).running = true ↔ 0 < c)
    ∧ ∀ (reg : RegistrationMode) (evs : List (DepthCounts × Bool))
        (cnt : DepthCounts) (d : DepthState),
      (runDepthSubscription reg d (evs ++ [(cnt, true)])).running = true
        ↔ 0 < cnt.total := by
  constructor
  · intro evs c s
    rw [runSubscription, List.foldl_append]
    generalize List.foldl _ s evs = t
    by_cases hc : 0 < c
    · cases hr : t.running <;>
        simp [onSubscriptionChanged, hc, hr]
    · simp [onSubscriptionChanged, hc]
  · intro reg evs cnt d
    rw [runDepthSubscription, List.foldl_append]
    generalize List.foldl _ d evs = t
    by_cases ha : 0 < cnt.total
    · have hz : cnt.total ≠ 0 := by omega
      cases hr : t.running <;>
        simp [depthOnSubscriptionChanged, ha, hr, hz,
          updateActivePublisher_running]
    · have hz : cnt.total = 0 := by omega
      cases hr : t.running <;>
        simp [depthOnSubscriptionChanged, ha, hr, hz,
          updateActivePublisher_running]

/-- Claim C7: every `configure` round processes the present sensors in the
fixed order color, depth, infrared, and after all three blocks re-asserts the
device-wide depth-color synchronization unconditionally — whatever the change
mask `level` says, and whether or not each sensor exists. -/
theorem configure_order_and_sync (envR envD envI : HWEnv) (cfg : CameraConfig)
    (level : Nat) (st : CameraState) :
    (configure envR envD envI cfg level st).2.2 =
      (if st.rgb.isSome then [CfgEvent.sensorConfigured SensorKind.color]
        else [])
      ++ (if st.depth.isSome then [CfgEvent.sensorConfigured SensorKind.depth]
        else [])
      ++ (if st.ir.isSome then [CfgEvent.sensorConfigured SensorKind.infrared]
        else [])
      ++ [CfgEvent.syncAsserted]
    ∧ (configure envR envD envI cfg level st).1.device.depthColorSync
        = true := by
  rcases st with ⟨r, dp, ir, dev⟩
  cases r <;> cases dp <;> cases ir <;> simp [configure]

/-- Claim C8: a request that turns depth registration on while the device
reports DEPTH_TO_COLOR unsupported does not fail: the accepted configuration
comes back with `depth_registration = false` and the device registration mode
stays OFF. -/
theorem registration_unsupported_fallback (envR envD envI : HWEnv)
    (cfg : CameraConfig) (level : Nat) (st : CameraState)
    (hd : st.depth.isSome = true) (hreq : cfg.depth_registration = true)
    (hbit : level &&& 1 ≠ 0)
    (hsup : st.device.registrationSupported = false)
    (hoff : st.device.registrationMode = RegistrationMode.off) :
    (configure envR envD envI cfg level st).2.1.depth_registration = false
    ∧ (configure envR envD envI cfg level st).1.device.registrationMode
        = RegistrationMode.off := by
  rcases st with ⟨r, dp, ir, dev⟩
  cases dp with
  | none => simp at hd
  | some d =>
    simp only at hsup hoff
    have hb : level % 2 = 1 := by
      rw [Nat.and_one_is_mod] at hbit
      omega
    cases r <;> cases ir <;>
      simp [configure, configureDepth, hreq, hb, hsup, hoff]

/-- Witness for C8 at the concrete camera `camNoReg` and request `cfgReg`. -/
theorem registration_unsupported_fallback_witness :
    (camNoReg.depth.isSome = true ∧ cfgReg.depth_registration = true
      ∧ (1 : Nat) &&& 1 ≠ 0
      ∧ camNoReg.device.registrationSupported = false
      ∧ camNoReg.device.registrationMode = RegistrationMode.off)
    ∧ ((configure envAllOk envAllOk envAllOk cfgReg 1
          camNoReg).2.1.depth_registration = false
      ∧ (configure envAllOk envAllOk envAllOk cfgReg 1
          camNoReg).1.device.registrationMode = RegistrationMode.off) :=
  ⟨⟨rfl, rfl, by decide, rfl, rfl⟩,
   registration_unsupported_fallback envAllOk envAllOk envAllOk cfgReg 1
     camNoReg rfl rfl (by decide) rfl rfl⟩

end OpenNI2
